import Mathlib

/-!
Verification development for the ultra_downloader server (`src/server.js`).

The server orchestrates an external extraction tool and an external
transcoding tool.  The definitions below are a shallow embedding of the
server's own logic: the format translator of the `/api/info` handler,
the retry loop of the `/api/download` handler, the metadata embedder
(`embedMetadata`), and the surrounding response construction.  Subprocess
behaviour (exit codes, spawn failures, timer expiry, file presence) is an
input to the model, supplied through small environment records, exactly at
the points where `server.js` observes it through callbacks.

Strings are manipulated through their character lists so that every
definition evaluates inside the kernel.
-/

/-! ## JavaScript value helpers -/

/-- Truthiness of an optional string field of a JS object: `undefined`,
`null` and the empty string are falsy. -/
def jsTruthyS : Option String → Bool
  | none => false
  | some s => s != ""

/-- The JS idiom `x || dflt` on an optional string field. -/
def jsOrS (o : Option String) (dflt : String) : String :=
  if jsTruthyS o then o.getD "" else dflt

/-- `s.startsWith(p)` on character lists. -/
def strStarts (s p : String) : Bool := p.toList.isPrefixOf s.toList

/-- `s.endsWith(p)` on character lists. -/
def strEnds (s p : String) : Bool := p.toList.reverse.isPrefixOf s.toList.reverse

/-- `s.includes(pat)`: substring containment, as used by the thumbnail
cleanup guard `thumbPath.includes(..)` in `embedMetadata`. -/
def strIncludes (s pat : String) : Bool :=
  go s.toList
where
  go : List Char → Bool
    | [] => pat.toList.isEmpty
    | c :: rest => pat.toList.isPrefixOf (c :: rest) || go rest

/-- ASCII lowercasing, enough for the case-insensitive regex flag on the
URL schemes the code tests for. -/
def lowerChar (c : Char) : Char :=
  if 'A' ≤ c ∧ c ≤ 'Z' then Char.ofNat (c.toNat + 32) else c

/-- The test of the anchored case-insensitive regex on line 190 of
`server.js`, matching an `http://` or `https://` scheme at the start of
the string. -/
def isHttpUrl (s : String) : Bool :=
  let low := s.toList.map lowerChar
  "http://".toList.isPrefixOf low || "https://".toList.isPrefixOf low

/-- `String(arg).trim() !== ''`: the argument survives the argument filter
iff it has a non-whitespace character. -/
def jsTrimNonempty (s : String) : Bool := s.toList.any (fun c => !c.isWhitespace)

/-- `path.basename` for slash-separated paths. -/
def basename (p : String) : String := String.mk ((p.toList.splitOn '/').getLastD [])

/-- JS `parseInt` in base 10: skip leading whitespace, optional sign, then
the longest run of decimal digits; `none` models `NaN` (no parseable
leading number). -/
def jsParseInt (s : String) : Option Int :=
  let core := fun (sign : Int) (rest : List Char) =>
    let ds := rest.takeWhile Char.isDigit
    if ds.isEmpty then none
    else some (sign * (ds.foldl (fun acc c => acc * 10 + (c.toNat - 48)) 0 : Nat))
  match s.toList.dropWhile Char.isWhitespace with
  | '-' :: rest => core (-1) rest
  | '+' :: rest => core 1 rest
  | rest => core 1 rest

/-! ## Format Translator (`/api/info` handler, lines 94-127) -/

/-- One element of the Extractor's raw `formats` array; every field the
handler reads may be absent from the JSON object. -/
structure RawFormat where
  vcodec : Option String
  acodec : Option String
  ext : Option String
  filesize : Option Nat
  filesize_approx : Option Nat
  tbr : Option Nat
  format_id : Option String
  height : Option Int
  format_note : Option String
deriving DecidableEq

/-- `Math.round(bytes / (1024 * 1024))`: round half up. -/
def roundMB (n : Nat) : Nat := (n + 524288) / 1048576

/-- Size estimate: exact `filesize` when truthy, else `filesize_approx`
when truthy, else 0. -/
def sizeMBOf (f : RawFormat) : Nat :=
  if f.filesize.getD 0 != 0 then roundMB (f.filesize.getD 0)
  else if f.filesize_approx.getD 0 != 0 then roundMB (f.filesize_approx.getD 0)
  else 0

/-- `f.format_note || (f.height ? height + "p" : "Unknown")`. -/
def resolutionLabel (f : RawFormat) : String :=
  if jsTruthyS f.format_note then f.format_note.getD ""
  else if f.height.getD 0 != 0 then toString (f.height.getD 0) ++ "p"
  else "Unknown"

/-- `[f.vcodec, f.acodec].filter(Boolean).join("+")`. -/
def codecLabel (f : RawFormat) : String :=
  String.intercalate "+" (([f.vcodec, f.acodec].filterMap id).filter (fun s => s != ""))

/-- The simplified video format record sent to the client. -/
structure VideoEntry where
  resolution : String
  codec : String
  container : Option String
  sizeMB : Nat
  bitrate : Nat
  itag : Option String
  hasAudio : Bool
deriving DecidableEq

def toVideoEntry (f : RawFormat) : VideoEntry :=
  { resolution := resolutionLabel f
    codec := codecLabel f
    container := f.ext
    sizeMB := sizeMBOf f
    bitrate := f.tbr.getD 0
    itag := f.format_id
    hasAudio := f.acodec != some "none" }

/-- The simplified audio format record sent to the client. -/
structure AudioEntry where
  itag : Option String
  bitrate : Nat
  container : Option String
deriving DecidableEq

def toAudioEntry (f : RawFormat) : AudioEntry :=
  { itag := f.format_id, bitrate := f.tbr.getD 0, container := f.ext }

/-- Filter of the video list: `f.vcodec !== "none"` (an absent `vcodec`
also passes). -/
def isVideoRaw (f : RawFormat) : Bool := f.vcodec != some "none"

/-- Filter of the audio list: `f.acodec !== "none" && f.vcodec === "none"`. -/
def isAudioRaw (f : RawFormat) : Bool :=
  f.acodec != some "none" && f.vcodec == some "none"

/-- The sort key `parseInt(entry.resolution) || 0`. -/
def resKey (v : VideoEntry) : Int := (jsParseInt v.resolution).getD 0

/-- The comparator `(a, b) => bRes - aRes` induces this total order: `a`
may precede `b` iff the parsed resolution of `a` is at least that of `b`.
JS `Array.prototype.sort` is a stable sort consistent with the
comparator, modeled by `List.mergeSort` below. -/
def videoCompareLe (a b : VideoEntry) : Bool := decide (resKey b ≤ resKey a)

/-- Comparator of the audio list: descending bitrate. -/
def audioCompareLe (a b : AudioEntry) : Bool := decide (b.bitrate ≤ a.bitrate)

/-- Video entries before sorting: `(info.formats || []).filter(..).map(..)`. -/
def rawVideoEntries (formats : Option (List RawFormat)) : List VideoEntry :=
  ((formats.getD []).filter isVideoRaw).map toVideoEntry

/-- The video format list of the `/api/info` response. -/
def videoFormats (formats : Option (List RawFormat)) : List VideoEntry :=
  (rawVideoEntries formats).mergeSort videoCompareLe

/-- Audio entries before sorting. -/
def rawAudioEntries (formats : Option (List RawFormat)) : List AudioEntry :=
  ((formats.getD []).filter isAudioRaw).map toAudioEntry

/-- The audio format list of the `/api/info` response. -/
def audioFormats (formats : Option (List RawFormat)) : List AudioEntry :=
  (rawAudioEntries formats).mergeSort audioCompareLe

/-! ## Download Orchestrator (`/api/download` handler, lines 264-438) -/

def maxRetries : Nat := 3

/-- The fixed pause between attempts: `setTimeout(resolve, 3000)`. -/
def retryPauseMs : Nat := 3000

/-- The per-attempt kill timer: `1000 * 60 * 15` milliseconds. -/
def killTimeoutMs : Nat := 1000 * 60 * 15

/-- How one `attemptDownload` run terminates, as the code observes it:
a spawn failure (`error` callback), the kill timer firing, or process
exit with a code, after which the expected output file either exists or
does not. -/
inductive AttemptEnv where
  | spawnError (msg : String)
  | timeout
  | exits (code : Int) (fileCreated : Bool)
deriving DecidableEq

/-- Resolution or rejection of the promise returned by `attemptDownload`. -/
def attemptResult : AttemptEnv → Except String Unit
  | .spawnError msg => .error msg
  | .timeout => .error "Download timed out"
  | .exits code fileCreated =>
    if code != 0 then .error ("Download failed with code " ++ toString code)
    else if !fileCreated then .error "File not created"
    else .ok ()

def attemptFails (e : AttemptEnv) : Bool :=
  match attemptResult e with
  | .ok _ => false
  | .error _ => true

def attemptErrMsg (e : AttemptEnv) : String :=
  match attemptResult e with
  | .ok _ => ""
  | .error m => m

/-- Progress events published on the broadcaster.  `retrying c m` stands
for the object `{status: "Retrying download... (c/m)", progress: 0}`. -/
inductive Event where
  | statusDownloading
  | finalizing
  | errorTimeout
  | errorDownloadFailed (details : String)
  | errorFileNotCreated
  | errorSpawnFailed
  | retrying (count maxR : Nat)
  | complete (file : String)
deriving DecidableEq

/-- Terminal-failure events emitted inside one `attemptDownload` run. -/
def attemptEvents : AttemptEnv → List Event
  | .spawnError _ => [.errorSpawnFailed]
  | .timeout => [.errorTimeout]
  | .exits code fileCreated =>
    if code != 0 then [.errorDownloadFailed ("Exit code: " ++ toString code)]
    else if !fileCreated then [.errorFileNotCreated]
    else []

/-- Observable step of the retry loop: the start of an attempt, an emitted
progress event, or the timed wait between attempts. -/
inductive Item where
  | attemptStart (k : Nat)
  | emit (e : Event)
  | sleep (ms : Nat)
deriving DecidableEq

/-- The trace of one attempt: its start followed by its emitted events. -/
def attemptTrace (k : Nat) (e : AttemptEnv) : List Item :=
  Item.attemptStart k :: (attemptEvents e).map Item.emit

/-- The `while (retryCount < maxRetries && !downloadSuccess)` loop.  The
fuel argument equals `maxRetries - retryCount` and only bounds the
recursion; the `retryCount + 1 < maxRetries` test below is the one the
code performs.  Returns the trace, the final `downloadSuccess` flag, and
the message of the last failure (used as the 500 response's details). -/
def runLoopAux (attempts : Nat → AttemptEnv) : Nat → Nat → List Item × Bool × String
  | 0, _ => ([], false, "")
  | fuel + 1, retryCount =>
    let env := attempts retryCount
    match attemptResult env with
    | .ok _ => (attemptTrace retryCount env, true, "")
    | .error msg =>
      let rc := retryCount + 1
      if rc < maxRetries then
        let rest := runLoopAux attempts fuel rc
        (attemptTrace retryCount env ++
          Item.emit (.retrying rc maxRetries) :: Item.sleep retryPauseMs :: rest.1,
          rest.2)
      else
        (attemptTrace retryCount env ++ [Item.emit (.retrying rc maxRetries)], false, msg)

/-- The retry loop of the `/api/download` handler, started with
`retryCount = 0`. -/
def runLoop (attempts : Nat → AttemptEnv) : List Item × Bool × String :=
  runLoopAux attempts maxRetries 0

def isRetryItem : Item → Bool
  | .emit (.retrying _ _) => true
  | _ => false

/-- Number of retry-announcement progress events in a trace. -/
def countRetryEvents (items : List Item) : Nat := items.countP isRetryItem

/-! ## Metadata Embedder (`embedMetadata`, lines 178-261) -/

/-- The server's output directory (`path.join(__dirname, "downloads")`),
kept as a relative name. -/
def downloadsDir : String := "downloads"

/-- The `{title, artist, thumbnail}` object passed to `embedMetadata`;
the handler fills every field with a string. -/
structure EmbedMetaArg where
  title : String
  artist : String
  thumbnail : String
deriving DecidableEq

/-- A file-system mutation performed by the embedder. -/
inductive FsAction where
  | write (path : String)
  | rename (src dst : String)
  | unlink (path : String)
deriving DecidableEq

/-- Environment of one `embedMetadata` run: outcome of the thumbnail
download, the uuid used for the thumbnail file name, and the Transcoder's
spawn outcome, exit code and stderr.  `fsExists` models `fs.existsSync`. -/
structure EmbedEnv where
  thumbDownloadOk : Bool
  thumbUuid : String
  ffmpegSpawnErr : Option String
  ffmpegExitCode : Int
  ffmpegStderr : String
  fsExists : String → Bool

/-- Path of a thumbnail the embedder downloads itself:
`path.join(downloadsDir, "thumb_" + uuid + ".jpg")`. -/
def thumbTempPath (env : EmbedEnv) : String :=
  downloadsDir ++ "/thumb_" ++ env.thumbUuid ++ ".jpg"

/-- Thumbnail resolution (lines 188-201): download a remote URL (a failed
download is caught and leaves no thumbnail), use an existing local path
directly, otherwise no thumbnail.  Never an error. -/
def resolveThumb (meta : EmbedMetaArg) (env : EmbedEnv) : Option String × List FsAction :=
  if meta.thumbnail != "" && isHttpUrl meta.thumbnail then
    if env.thumbDownloadOk then
      (some (thumbTempPath env), [.write (thumbTempPath env)])
    else (none, [])
  else if meta.thumbnail != "" && env.fsExists meta.thumbnail then
    (some meta.thumbnail, [])
  else (none, [])

/-- `path.join(downloadsDir, "meta_temp_" + path.basename(filePath))`. -/
def metaTempPath (filePath : String) : String :=
  downloadsDir ++ "/" ++ ("meta_temp_" ++ basename filePath)

/-- The Transcoder argument vector (lines 204-229): two inputs plus the
attached-picture disposition when a thumbnail is available, otherwise the
tag-only form. -/
def buildEmbedArgs (filePath tempPath : String) (thumbPath : Option String)
    (meta : EmbedMetaArg) : List String :=
  match thumbPath with
  | some tp =>
    ["-i", filePath, "-i", tp, "-map", "0", "-map", "1", "-c", "copy",
     "-metadata", "title=" ++ meta.title,
     "-metadata", "artist=" ++ meta.artist,
     "-metadata", "comment=Downloaded with ULTRA Downloader",
     "-disposition:v:1", "attached_pic", tempPath]
  | none =>
    ["-i", filePath, "-c", "copy",
     "-metadata", "title=" ++ meta.title,
     "-metadata", "artist=" ++ meta.artist,
     "-metadata", "comment=Downloaded with ULTRA Downloader", tempPath]

/-- `embedMetadata(filePath, metadata)`: resolve the thumbnail, run the
Transcoder, and on a zero exit rename the temporary output over the
original and unlink the thumbnail when its path contains `thumb_` and it
exists; on a non-zero exit reject with a message carrying the stderr
text.  Returns the outcome and the file-system actions performed. -/
def embedMetadata (filePath : String) (meta : EmbedMetaArg) (env : EmbedEnv) :
    Except String Unit × List FsAction :=
  let tempPath := metaTempPath filePath
  let resolved := resolveThumb meta env
  let thumbPath := resolved.1
  match env.ffmpegSpawnErr with
  | some e => (.error e, resolved.2)
  | none =>
    if env.ffmpegExitCode == 0 then
      let cleanup :=
        match thumbPath with
        | some tp =>
          if strIncludes tp "thumb_" && env.fsExists tp then [FsAction.unlink tp] else []
        | none => []
      (.ok (), resolved.2 ++ FsAction.rename tempPath filePath :: cleanup)
    else
      (.error ("FFmpeg exited with code " ++ toString env.ffmpegExitCode ++
        ". Stderr: " ++ env.ffmpegStderr), resolved.2)

/-- Effect of one action on a file system (path to content; downloaded
content is abstracted). -/
def applyFsAction (fs : String → Option String) : FsAction → String → Option String
  | .write p => fun q => if q = p then some "downloaded" else fs q
  | .rename src dst => fun q => if q = dst then fs src else if q = src then none else fs q
  | .unlink p => fun q => if q = p then none else fs q

def applyFsActions (fs : String → Option String) (acts : List FsAction) :
    String → Option String :=
  acts.foldl applyFsAction fs

/-! ## Info re-fetch and handler (`fetchVideoInfo`, `/api/download`) -/

/-- Fields of the Extractor's JSON document that `fetchVideoInfo` reads. -/
structure RawInfo where
  title : Option String
  uploader : Option String
  thumbnail : Option String
deriving DecidableEq

/-- Environment of one `fetchVideoInfo` run: exit code, collected stderr,
and the parse result of the collected stdout (`none` = parse failure). -/
structure InfoEnv where
  exitCode : Int
  errorOutput : String
  parsed : Option RawInfo
deriving DecidableEq

structure MetaInfo where
  title : String
  uploader : String
  thumbnail : String
deriving DecidableEq

/-- `fetchVideoInfo` (lines 441-480). -/
def fetchVideoInfo (env : InfoEnv) : Except String MetaInfo :=
  if env.exitCode != 0 then
    .error (if env.errorOutput != "" then env.errorOutput
      else "exit code " ++ toString env.exitCode)
  else
    match env.parsed with
    | none => .error "JSON parse error"
    | some info =>
      .ok { title := jsOrS info.title "Untitled Video"
            uploader := jsOrS info.uploader "Unknown"
            thumbnail := jsOrS info.thumbnail "" }

/-- The metadata phase of the handler (lines 406-422): re-fetch the info,
embed it, and swallow any failure of either step with a warning. -/
def metadataPhase (ienv : InfoEnv) (eenv : EmbedEnv) (filePath : String) : List FsAction :=
  match fetchVideoInfo ienv with
  | .error _ => []
  | .ok info =>
    (embedMetadata filePath
      { title := info.title, artist := info.uploader, thumbnail := info.thumbnail } eenv).2

/-- JSON bodies the handler can answer with. -/
inductive Response where
  | badRequest (error : String)
  | serverError (error details : String)
  | success (file : String)
deriving DecidableEq

def isSuccessResponse : Response → Bool
  | .success _ => true
  | _ => false

structure HandlerOut where
  items : List Item
  response : Response
  fsActions : List FsAction

/-- Environment of one `/api/download` request: attempt outcomes, the
Transcoder directory handed to the Extractor (platform-dependent in the
code), the environments of the metadata phase, and the directory listing
seen by the temp-file cleanup. -/
structure HandlerEnv where
  attempts : Nat → AttemptEnv
  ffmpegDir : String
  infoEnv : InfoEnv
  embedEnv : EmbedEnv
  dirListing : List String

def baseOutput (id : String) : String := downloadsDir ++ "/" ++ id

def finalFilePath (id : String) : String := baseOutput id ++ ".mp4"

def userAgent : String :=
  "Mozilla/5.0 (Windows NT 10.0; Win64; x64) AppleWebKit/537.36 (KHTML, like Gecko) Chrome/125.0.0.0 Safari/537.36"

/-- Extractor argument construction of the handler (lines 277-301),
including the format-selection argument and the final filter dropping
blank arguments. -/
def buildDownloadArgs (ffmpegDir id url : String)
    (videoItag audioItag : Option String) : List String :=
  let args := ["--no-warnings", "--ignore-errors", "--no-check-certificates",
    "--console-title", "--newline", "--progress",
    "--ffmpeg-location", ffmpegDir, "--user-agent", userAgent,
    "--no-playlist", "-o", baseOutput id ++ ".%(ext)s", url]
  let args := args ++
    (if jsTruthyS videoItag && jsTruthyS audioItag then
      ["-f", videoItag.getD "" ++ "+" ++ audioItag.getD ""]
    else if jsTruthyS videoItag then ["-f", videoItag.getD ""]
    else ["-f", "bestvideo+bestaudio"])
  let args := args ++ ["--merge-output-format", "mp4",
    "--postprocessor-args", "-c:v copy -c:a aac -b:a 192k"]
  args.filter jsTrimNonempty

/-- The `/api/download` handler: reject a missing URL, run the retry
loop, answer 500 when it exhausts its attempts, otherwise run the
(non-fatal) metadata phase, clean up temporaries, publish the completion
event and answer `{success: true, file: id + ".mp4"}`. -/
def downloadHandler (id url : String) (videoItag audioItag : Option String)
    (env : HandlerEnv) : HandlerOut :=
  if url == "" then
    { items := [], response := .badRequest "Missing URL", fsActions := [] }
  else
    let _args := buildDownloadArgs env.ffmpegDir id url videoItag audioItag
    let loopOut := runLoop env.attempts
    if loopOut.2.1 then
      let metaActs := metadataPhase env.infoEnv env.embedEnv (finalFilePath id)
      let cleanupActs :=
        (env.dirListing.filter (fun f => strStarts f id && !strEnds f ".mp4")).map
          FsAction.unlink
      { items := loopOut.1 ++ [Item.emit (.complete (id ++ ".mp4"))],
        response := .success (id ++ ".mp4"),
        fsActions := metaActs ++ cleanupActs }
    else
      { items := loopOut.1,
        response := .serverError "Download failed after retries" loopOut.2.2,
        fsActions := [] }

/-! ## Properties of the retry loop -/

/-- Case-by-case description of the retry loop in terms of the three
possible attempt outcomes. -/
theorem runLoop_spec (attempts : Nat → AttemptEnv) :
    runLoop attempts =
      if attemptFails (attempts 0) = false then
        (attemptTrace 0 (attempts 0), true, "")
      else if attemptFails (attempts 1) = false then
        (attemptTrace 0 (attempts 0) ++
          Item.emit (.retrying 1 3) :: Item.sleep 3000 :: attemptTrace 1 (attempts 1),
          true, "")
      else if attemptFails (attempts 2) = false then
        (attemptTrace 0 (attempts 0) ++
          Item.emit (.retrying 1 3) :: Item.sleep 3000 ::
            (attemptTrace 1 (attempts 1) ++
              Item.emit (.retrying 2 3) :: Item.sleep 3000 :: attemptTrace 2 (attempts 2)),
          true, "")
      else
        (attemptTrace 0 (attempts 0) ++
          Item.emit (.retrying 1 3) :: Item.sleep 3000 ::
            (attemptTrace 1 (attempts 1) ++
              Item.emit (.retrying 2 3) :: Item.sleep 3000 ::
                (attemptTrace 2 (attempts 2) ++ [Item.emit (.retrying 3 3)])),
          false, attemptErrMsg (attempts 2)) := by
  cases h0 : attemptResult (attempts 0) with
  | ok u =>
    simp [runLoop, runLoopAux, h0, attemptFails, maxRetries, retryPauseMs]
  | error m0 =>
    cases h1 : attemptResult (attempts 1) with
    | ok u =>
      simp [runLoop, runLoopAux, h0, h1, attemptFails, attemptErrMsg,
        maxRetries, retryPauseMs]
    | error m1 =>
      cases h2 : attemptResult (attempts 2) with
      | ok u =>
        simp [runLoop, runLoopAux, h0, h1, h2, attemptFails, attemptErrMsg,
          maxRetries, retryPauseMs]
      | error m2 =>
        simp [runLoop, runLoopAux, h0, h1, h2, attemptFails, attemptErrMsg,
          maxRetries, retryPauseMs]

/-- An attempt trace contains no retry announcement: those are emitted by
the loop, not inside `attemptDownload`. -/
theorem countRetry_attemptTrace (k : Nat) (e : AttemptEnv) :
    countRetryEvents (attemptTrace k e) = 0 := by
  cases e with
  | spawnError m => simp [attemptTrace, attemptEvents, countRetryEvents, isRetryItem]
  | timeout => simp [attemptTrace, attemptEvents, countRetryEvents, isRetryItem]
  | exits code fileCreated =>
    simp only [attemptTrace, attemptEvents, countRetryEvents]
    split
    · simp [isRetryItem]
    · split <;> simp [isRetryItem]

/-- C1: every failed attempt — non-zero exit, spawn failure, the
15-minute timeout, or the expected output file missing after a zero
exit — is followed by a retry announcement carrying the retry count, at
most 3 attempts are made in total, and consecutive attempts are separated
by a fixed 3000 ms pause.  The trace of the loop is described exactly,
case by case on which attempt first succeeds. -/
theorem claim_c1_retry_policy (attempts : Nat → AttemptEnv) :
    killTimeoutMs = 1000 * 60 * 15 ∧ retryPauseMs = 3000 ∧ maxRetries = 3 ∧
    (∀ e : AttemptEnv, attemptFails e = true ↔
      ((∃ m, e = .spawnError m) ∨ e = .timeout ∨
        (∃ c fc, e = .exits c fc ∧ (c ≠ 0 ∨ fc = false)))) ∧
    runLoop attempts =
      (if attemptFails (attempts 0) = false then
        (attemptTrace 0 (attempts 0), true, "")
      else if attemptFails (attempts 1) = false then
        (attemptTrace 0 (attempts 0) ++
          Item.emit (.retrying 1 3) :: Item.sleep 3000 :: attemptTrace 1 (attempts 1),
          true, "")
      else if attemptFails (attempts 2) = false then
        (attemptTrace 0 (attempts 0) ++
          Item.emit (.retrying 1 3) :: Item.sleep 3000 ::
            (attemptTrace 1 (attempts 1) ++
              Item.emit (.retrying 2 3) :: Item.sleep 3000 :: attemptTrace 2 (attempts 2)),
          true, "")
      else
        (attemptTrace 0 (attempts 0) ++
          Item.emit (.retrying 1 3) :: Item.sleep 3000 ::
            (attemptTrace 1 (attempts 1) ++
              Item.emit (.retrying 2 3) :: Item.sleep 3000 ::
                (attemptTrace 2 (attempts 2) ++ [Item.emit (.retrying 3 3)])),
          false, attemptErrMsg (attempts 2))) := by
  refine ⟨rfl, rfl, rfl, ?_, runLoop_spec attempts⟩
  intro e
  cases e with
  | spawnError m => simp [attemptFails, attemptResult]
  | timeout => simp [attemptFails, attemptResult]
  | exits c fc =>
    constructor
    · intro hf
      refine Or.inr (Or.inr ⟨c, fc, rfl, ?_⟩)
      by_cases hc : c = 0
      · subst hc
        cases fc with
        | false => exact Or.inr rfl
        | true => simp [attemptFails, attemptResult] at hf
      · exact Or.inl hc
    · rintro (⟨m, hm⟩ | he | ⟨c2, fc2, heq, hor⟩)
      · exact AttemptEnv.noConfusion hm
      · exact AttemptEnv.noConfusion he
      · cases heq
        rcases hor with hc | hfc
        · simp [attemptFails, attemptResult, hc]
        · subst hfc
          by_cases hc : c = 0 <;> simp [attemptFails, attemptResult, hc]

/-- C2: when all 3 attempts fail, the handler answers the 500 body
`{error: "Download failed after retries", details: <last message>}` and
never a `{success: true}` body. -/
theorem claim_c2_exhausted_retries_fail (id url : String)
    (videoItag audioItag : Option String) (env : HandlerEnv) (hurl : url ≠ "")
    (h0 : attemptFails (env.attempts 0) = true)
    (h1 : attemptFails (env.attempts 1) = true)
    (h2 : attemptFails (env.attempts 2) = true) :
    (downloadHandler id url videoItag audioItag env).response =
      .serverError "Download failed after retries" (attemptErrMsg (env.attempts 2)) ∧
    isSuccessResponse (downloadHandler id url videoItag audioItag env).response = false := by
  have hb : (url == "") = false := beq_eq_false_iff_ne.mpr hurl
  have hs := runLoop_spec env.attempts
  rw [h0, h1, h2] at hs
  simp only [Bool.true_eq_false, if_false] at hs
  constructor
  · simp [downloadHandler, hb, hs]
  · simp [downloadHandler, hb, hs, isSuccessResponse]

/-- C3: a failure on attempt 1 followed by a success on attempt 2 yields
the same success response as an immediate success, and exactly one retry
announcement is emitted (none for the immediate success). -/
theorem claim_c3_retry_transparent (id url : String)
    (videoItag audioItag : Option String) (env env2 : HandlerEnv) (hurl : url ≠ "")
    (h0 : attemptFails (env.attempts 0) = true)
    (h1 : attemptFails (env.attempts 1) = false)
    (h0b : attemptFails (env2.attempts 0) = false) :
    (downloadHandler id url videoItag audioItag env).response = .success (id ++ ".mp4") ∧
    (downloadHandler id url videoItag audioItag env).response =
      (downloadHandler id url videoItag audioItag env2).response ∧
    countRetryEvents (downloadHandler id url videoItag audioItag env).items = 1 ∧
    countRetryEvents (downloadHandler id url videoItag audioItag env2).items = 0 := by
  have hb : (url == "") = false := beq_eq_false_iff_ne.mpr hurl
  have hs := runLoop_spec env.attempts
  rw [h0, h1] at hs
  simp only [Bool.true_eq_false, if_false, if_true, eq_self_iff_true] at hs
  have hs2 := runLoop_spec env2.attempts
  rw [h0b] at hs2
  simp only [if_true, eq_self_iff_true] at hs2
  have hA0 := countRetry_attemptTrace 0 (env.attempts 0)
  have hA1 := countRetry_attemptTrace 1 (env.attempts 1)
  have hB0 := countRetry_attemptTrace 0 (env2.attempts 0)
  simp only [countRetryEvents] at hA0 hA1 hB0
  refine ⟨?_, ?_, ?_, ?_⟩
  · simp [downloadHandler, hb, hs]
  · simp [downloadHandler, hb, hs, hs2]
  · simp [downloadHandler, hb, hs, countRetryEvents, List.countP_append,
      List.countP_cons, hA0, hA1, isRetryItem]
  · simp [downloadHandler, hb, hs2, countRetryEvents, List.countP_append,
      List.countP_cons, hB0, isRetryItem]

/-- C4: once the retry loop has succeeded, the response is
`{success: true, file: id + ".mp4"}` whatever the info re-fetch and
embedding environments do — a metadata failure never changes the success
status. -/
theorem claim_c4_embed_failure_nonfatal (id url : String)
    (videoItag audioItag : Option String) (env env2 : HandlerEnv) (hurl : url ≠ "")
    (hatt : env2.attempts = env.attempts)
    (hsucc : (runLoop env.attempts).2.1 = true) :
    (downloadHandler id url videoItag audioItag env).response = .success (id ++ ".mp4") ∧
    (downloadHandler id url videoItag audioItag env2).response =
      (downloadHandler id url videoItag audioItag env).response := by
  have hb : (url == "") = false := beq_eq_false_iff_ne.mpr hurl
  constructor
  · simp [downloadHandler, hb, hsucc]
  · simp [downloadHandler, hb, hatt, hsucc]

/-- C10: on success the response file name and the completion event both
carry `id + ".mp4"`, whatever format identifiers were requested, and the
Extractor is always invoked with `--merge-output-format mp4`. -/
theorem claim_c10_container_fixed_mp4 (id url : String)
    (videoItag audioItag videoItag2 audioItag2 : Option String) (env : HandlerEnv)
    (hurl : url ≠ "") (hsucc : (runLoop env.attempts).2.1 = true) :
    (downloadHandler id url videoItag audioItag env).response = .success (id ++ ".mp4") ∧
    Item.emit (.complete (id ++ ".mp4")) ∈
      (downloadHandler id url videoItag audioItag env).items ∧
    (downloadHandler id url videoItag audioItag env).response =
      (downloadHandler id url videoItag2 audioItag2 env).response ∧
    (∃ l r, buildDownloadArgs env.ffmpegDir id url videoItag audioItag =
      l ++ "--merge-output-format" :: "mp4" :: r) := by
  have hb : (url == "") = false := beq_eq_false_iff_ne.mpr hurl
  have htail : List.filter jsTrimNonempty
      ["--merge-output-format", "mp4", "--postprocessor-args",
        "-c:v copy -c:a aac -b:a 192k"] =
      ["--merge-output-format", "mp4", "--postprocessor-args",
        "-c:v copy -c:a aac -b:a 192k"] := by decide
  refine ⟨?_, ?_, ?_, ?_⟩
  · simp [downloadHandler, hb, hsucc]
  · simp [downloadHandler, hb, hsucc]
  · simp [downloadHandler, hb, hsucc]
  · refine ⟨List.filter jsTrimNonempty
      (["--no-warnings", "--ignore-errors", "--no-check-certificates",
        "--console-title", "--newline", "--progress",
        "--ffmpeg-location", env.ffmpegDir, "--user-agent", userAgent,
        "--no-playlist", "-o", baseOutput id ++ ".%(ext)s", url] ++
        (if jsTruthyS videoItag && jsTruthyS audioItag then
          ["-f", videoItag.getD "" ++ "+" ++ audioItag.getD ""]
        else if jsTruthyS videoItag then ["-f", videoItag.getD ""]
        else ["-f", "bestvideo+bestaudio"])),
      ["--postprocessor-args", "-c:v copy -c:a aac -b:a 192k"], ?_⟩
    simp only [buildDownloadArgs]
    rw [List.filter_append, htail]

/-! ## Concrete environments used by the witnesses -/

def timeoutAttempts : Nat → AttemptEnv := fun _ => .timeout

def okAttempts : Nat → AttemptEnv := fun _ => .exits 0 true

def retryOnceAttempts : Nat → AttemptEnv := fun k =>
  if k == 0 then .timeout else .exits 0 true

def sampleInfoEnv : InfoEnv :=
  { exitCode := 0, errorOutput := "",
    parsed := some ⟨some "Title", some "Uploader", some "http://example.com/t.jpg"⟩ }

def failInfoEnv : InfoEnv := { exitCode := 1, errorOutput := "boom", parsed := none }

def okEmbedEnv : EmbedEnv :=
  { thumbDownloadOk := true, thumbUuid := "u1", ffmpegSpawnErr := none,
    ffmpegExitCode := 0, ffmpegStderr := "", fsExists := fun _ => false }

def failEmbedEnv : EmbedEnv :=
  { thumbDownloadOk := true, thumbUuid := "u1", ffmpegSpawnErr := none,
    ffmpegExitCode := 1, ffmpegStderr := "mux error", fsExists := fun _ => false }

def envAllFail : HandlerEnv :=
  { attempts := timeoutAttempts, ffmpegDir := "C:/ffmpeg/bin",
    infoEnv := sampleInfoEnv, embedEnv := okEmbedEnv, dirListing := [] }

def envRetryOnce : HandlerEnv :=
  { attempts := retryOnceAttempts, ffmpegDir := "C:/ffmpeg/bin",
    infoEnv := sampleInfoEnv, embedEnv := okEmbedEnv, dirListing := [] }

def envImmediateOk : HandlerEnv :=
  { attempts := okAttempts, ffmpegDir := "C:/ffmpeg/bin",
    infoEnv := sampleInfoEnv, embedEnv := okEmbedEnv, dirListing := [] }

def envOkFailEmbed : HandlerEnv :=
  { attempts := okAttempts, ffmpegDir := "C:/ffmpeg/bin",
    infoEnv := failInfoEnv, embedEnv := failEmbedEnv, dirListing := [] }

/-- Witness for C2 at a concrete request whose three attempts all time
out. -/
theorem claim_c2_witness :
    ("https://v.example/watch" : String) ≠ "" ∧
    attemptFails (envAllFail.attempts 0) = true ∧
    attemptFails (envAllFail.attempts 1) = true ∧
    attemptFails (envAllFail.attempts 2) = true ∧
    (downloadHandler "vid1" "https://v.example/watch" none none envAllFail).response =
      .serverError "Download failed after retries" (attemptErrMsg (envAllFail.attempts 2)) ∧
    isSuccessResponse
      (downloadHandler "vid1" "https://v.example/watch" none none envAllFail).response =
      false := by
  have h := claim_c2_exhausted_retries_fail "vid1" "https://v.example/watch" none none
    envAllFail (by decide) (by decide) (by decide) (by decide)
  exact ⟨by decide, by decide, by decide, by decide, h.1, h.2⟩

/-- Witness for C3: a timeout on attempt 1 followed by a clean exit on
attempt 2 against an immediate clean exit. -/
theorem claim_c3_witness :
    ("https://v.example/w2" : String) ≠ "" ∧
    attemptFails (envRetryOnce.attempts 0) = true ∧
    attemptFails (envRetryOnce.attempts 1) = false ∧
    attemptFails (envImmediateOk.attempts 0) = false ∧
    (downloadHandler "vid4" "https://v.example/w2" none none envRetryOnce).response =
      .success ("vid4" ++ ".mp4") ∧
    (downloadHandler "vid4" "https://v.example/w2" none none envRetryOnce).response =
      (downloadHandler "vid4" "https://v.example/w2" none none envImmediateOk).response ∧
    countRetryEvents
      (downloadHandler "vid4" "https://v.example/w2" none none envRetryOnce).items = 1 ∧
    countRetryEvents
      (downloadHandler "vid4" "https://v.example/w2" none none envImmediateOk).items = 0 := by
  have h := claim_c3_retry_transparent "vid4" "https://v.example/w2" none none
    envRetryOnce envImmediateOk (by decide) (by decide) (by decide) (by decide)
  exact ⟨by decide, by decide, by decide, by decide, h.1, h.2.1, h.2.2.1, h.2.2.2⟩

/-- Witness for C4: the same successful attempts paired once with a
working metadata phase and once with a failing info re-fetch and a
failing Transcoder run. -/
theorem claim_c4_witness :
    ("https://v.example/w3" : String) ≠ "" ∧
    envOkFailEmbed.attempts = envImmediateOk.attempts ∧
    (runLoop envImmediateOk.attempts).2.1 = true ∧
    (downloadHandler "vid2" "https://v.example/w3" none none envImmediateOk).response =
      .success ("vid2" ++ ".mp4") ∧
    (downloadHandler "vid2" "https://v.example/w3" none none envOkFailEmbed).response =
      (downloadHandler "vid2" "https://v.example/w3" none none envImmediateOk).response := by
  have h := claim_c4_embed_failure_nonfatal "vid2" "https://v.example/w3" none none
    envImmediateOk envOkFailEmbed (by decide) rfl (by decide)
  exact ⟨by decide, rfl, by decide, h.1, h.2⟩

/-- Witness for C10 at a request that names both a video and an audio
format identifier. -/
theorem claim_c10_witness :
    ("https://v.example/w4" : String) ≠ "" ∧
    (runLoop envImmediateOk.attempts).2.1 = true ∧
    (downloadHandler "vid3" "https://v.example/w4" (some "137") (some "140")
      envImmediateOk).response = .success ("vid3" ++ ".mp4") ∧
    Item.emit (.complete ("vid3" ++ ".mp4")) ∈
      (downloadHandler "vid3" "https://v.example/w4" (some "137") (some "140")
        envImmediateOk).items ∧
    (downloadHandler "vid3" "https://v.example/w4" (some "137") (some "140")
      envImmediateOk).response =
      (downloadHandler "vid3" "https://v.example/w4" none none envImmediateOk).response := by
  have h := claim_c10_container_fixed_mp4 "vid3" "https://v.example/w4"
    (some "137") (some "140") none none envImmediateOk (by decide) (by decide)
  exact ⟨by decide, by decide, h.1, h.2.1, h.2.2.1⟩

/-! ## Properties of the Format Translator -/

/-- C5: the video list is (a reordering of) exactly the entries whose
video codec is not the string `"none"`, the audio list exactly those with
no video codec but an audio codec, the two filters exclude each other,
and a missing format list yields two empty lists. -/
theorem claim_c5_format_partition (formats : Option (List RawFormat)) :
    (videoFormats formats).Perm
      (((formats.getD []).filter isVideoRaw).map toVideoEntry) ∧
    (audioFormats formats).Perm
      (((formats.getD []).filter isAudioRaw).map toAudioEntry) ∧
    (∀ f : RawFormat, (isVideoRaw f && isAudioRaw f) = false) ∧
    videoFormats none = [] ∧ audioFormats none = [] := by
  refine ⟨List.mergeSort_perm _ _, List.mergeSort_perm _ _, ?_, ?_, ?_⟩
  · intro f
    simp only [isVideoRaw, isAudioRaw]
    by_cases h : f.vcodec = some "none"
    · simp [h]
    · simp [h]
  · simp [videoFormats, rawVideoEntries, List.mergeSort_nil]
  · simp [audioFormats, rawAudioEntries, List.mergeSort_nil]

theorem videoCompareLe_trans : ∀ a b c : VideoEntry,
    videoCompareLe a b = true → videoCompareLe b c = true →
    videoCompareLe a c = true := by
  intro a b c hab hbc
  simp only [videoCompareLe, decide_eq_true_eq] at *
  exact le_trans hbc hab

theorem videoCompareLe_total : ∀ a b : VideoEntry,
    (videoCompareLe a b || videoCompareLe b a) = true := by
  intro a b
  simp only [videoCompareLe, Bool.or_eq_true, decide_eq_true_eq]
  exact le_total (resKey b) (resKey a)

/-- The video list is sorted by descending parsed resolution. -/
theorem videoFormats_sorted (formats : Option (List RawFormat)) :
    (videoFormats formats).Pairwise (fun a b => resKey b ≤ resKey a) := by
  have h := List.sorted_mergeSort videoCompareLe_trans videoCompareLe_total
    (rawVideoEntries formats)
  exact h.imp (by
    intro a b hab
    simpa [videoCompareLe, decide_eq_true_eq] using hab)

/-- Stability of the sort: any class of entries sharing one parsed
resolution keeps its original relative order. -/
theorem videoFormats_stable_filter (formats : Option (List RawFormat))
    (p : VideoEntry → Bool) (k : Int) (hp : ∀ v, p v = true → resKey v = k) :
    (videoFormats formats).filter p = (rawVideoEntries formats).filter p := by
  have hsub : ((rawVideoEntries formats).filter p).Sublist (rawVideoEntries formats) :=
    List.filter_sublist _
  have hpair : ((rawVideoEntries formats).filter p).Pairwise
      (fun a b => videoCompareLe a b = true) := by
    refine List.pairwise_of_forall_mem_list ?_
    intro a ha b hb
    have hka : resKey a = k := hp a (List.of_mem_filter ha)
    have hkb : resKey b = k := hp b (List.of_mem_filter hb)
    simp [videoCompareLe, hka, hkb]
  have hsub2 : ((rawVideoEntries formats).filter p).Sublist (videoFormats formats) :=
    List.sublist_mergeSort videoCompareLe_trans videoCompareLe_total hpair hsub
  have hperm : ((videoFormats formats).filter p).Perm
      ((rawVideoEntries formats).filter p) :=
    (List.mergeSort_perm (rawVideoEntries formats) videoCompareLe).filter p
  have hsf : ((rawVideoEntries formats).filter p).filter p =
      (rawVideoEntries formats).filter p :=
    List.filter_eq_self.mpr (fun a ha => List.of_mem_filter ha)
  have hsub3 : ((rawVideoEntries formats).filter p).Sublist
      ((videoFormats formats).filter p) := by
    have h := hsub2.filter p
    rwa [hsf] at h
  exact (hsub3.eq_of_length hperm.length_eq.symm).symm

/-- Whether the resolution label has a parseable leading number. -/
def resParseable (v : VideoEntry) : Bool := (jsParseInt v.resolution).isSome

/-- Descending order by parsed resolution, as C6 states it. -/
def sortedDescByRes (l : List VideoEntry) : Prop :=
  l.Pairwise (fun a b => resKey b ≤ resKey a)

/-- The part of C6 saying unparseable entries sort last: every entry with
a parseable label comes before every entry without one. -/
def unparseableSortLast (l : List VideoEntry) : Prop :=
  ∀ i j : Fin l.length, resParseable (l.get i) = false → resParseable (l.get j) = true →
    (j : Nat) < (i : Nat)

/-- The part of C6 saying unparseable entries keep their original
relative order among themselves. -/
def unparseableStable (formats : Option (List RawFormat)) : Prop :=
  (videoFormats formats).filter (fun v => !resParseable v) =
    (rawVideoEntries formats).filter (fun v => !resParseable v)

/-- C6 exactly as stated. -/
def claimedSortBehavior (formats : Option (List RawFormat)) : Prop :=
  sortedDescByRes (videoFormats formats) ∧
    unparseableSortLast (videoFormats formats) ∧ unparseableStable formats

/-- A format whose resolution label parses to a negative number. -/
def negResFormat : RawFormat :=
  { vcodec := some "avc1", acodec := some "mp4a", ext := some "mp4", filesize := none,
    filesize_approx := none, tbr := none, format_id := some "22", height := none,
    format_note := some "-5p" }

/-- A format whose resolution label has no parseable leading number. -/
def wordResFormat : RawFormat :=
  { vcodec := some "vp9", acodec := some "opus", ext := some "webm", filesize := none,
    filesize_approx := none, tbr := none, format_id := some "43", height := none,
    format_note := some "lowres" }

unseal List.merge List.mergeSort in
/-- C6 counterexample: with a `-5p` entry and a `lowres` entry the sort
places the unparseable entry (key 0) before the parseable one (key -5),
so unparseable entries do not sort last. -/
theorem claim_c6_counterexample :
    ¬ claimedSortBehavior (some [negResFormat, wordResFormat]) := by
  simp only [claimedSortBehavior, sortedDescByRes, unparseableSortLast,
    unparseableStable]
  decide

/-- C6 (amended): the video list is sorted by descending parsed
resolution with unparseable labels keyed as 0 — such entries therefore
come after positively-parsed entries but before negatively-parsed ones,
not necessarily last — and entries of equal key, in particular the
unparseable ones, keep their original relative order. -/
theorem claim_c6_sorted_descending_stable (formats : Option (List RawFormat)) :
    (videoFormats formats).Pairwise (fun a b => resKey b ≤ resKey a) ∧
    (∀ k : Int, (videoFormats formats).filter (fun v => resKey v == k) =
      (rawVideoEntries formats).filter (fun v => resKey v == k)) ∧
    (videoFormats formats).filter (fun v => !resParseable v) =
      (rawVideoEntries formats).filter (fun v => !resParseable v) := by
  refine ⟨videoFormats_sorted formats, ?_, ?_⟩
  · intro k
    refine videoFormats_stable_filter formats _ k ?_
    intro v hv
    simpa using hv
  · refine videoFormats_stable_filter formats _ 0 ?_
    intro v hv
    have hnone : jsParseInt v.resolution = none := by
      rcases h : jsParseInt v.resolution with _ | n
      · rfl
      · simp [resParseable, h] at hv
    simp [resKey, hnone]

/-! ## Properties of the Metadata Embedder -/

/-- C7: a thumbnail value that is not an http(s) URL and does not exist
locally resolves to no thumbnail (with no fs action and no error), the
Transcoder is invoked with the tag-only argument vector — one input, no
attached-picture disposition — and, absent a Transcoder failure of its
own, the embedder completes without error. -/
theorem claim_c7_tag_only_embedding (meta : EmbedMetaArg) (env : EmbedEnv)
    (filePath : String)
    (hnoUrl : isHttpUrl meta.thumbnail = false)
    (hnoFile : env.fsExists meta.thumbnail = false) :
    resolveThumb meta env = (none, []) ∧
    buildEmbedArgs filePath (metaTempPath filePath) (resolveThumb meta env).1 meta =
      ["-i", filePath, "-c", "copy",
       "-metadata", "title=" ++ meta.title,
       "-metadata", "artist=" ++ meta.artist,
       "-metadata", "comment=Downloaded with ULTRA Downloader",
       metaTempPath filePath] ∧
    (env.ffmpegSpawnErr = none → env.ffmpegExitCode = 0 →
      (embedMetadata filePath meta env).1 = .ok ()) := by
  have hr : resolveThumb meta env = (none, []) := by
    simp [resolveThumb, hnoUrl, hnoFile]
  refine ⟨hr, ?_, ?_⟩
  · rw [hr]
    rfl
  · intro hspawn hcode
    simp [embedMetadata, hr, hspawn, hcode]

/-- Concrete metadata whose thumbnail is neither a URL nor an existing
file. -/
def noThumbMeta : EmbedMetaArg :=
  { title := "T", artist := "A", thumbnail := "local/missing.jpg" }

/-- Witness for C7. -/
theorem claim_c7_witness :
    isHttpUrl noThumbMeta.thumbnail = false ∧
    okEmbedEnv.fsExists noThumbMeta.thumbnail = false ∧
    resolveThumb noThumbMeta okEmbedEnv = (none, []) ∧
    buildEmbedArgs "downloads/vid9.mp4" (metaTempPath "downloads/vid9.mp4")
      (resolveThumb noThumbMeta okEmbedEnv).1 noThumbMeta =
      ["-i", "downloads/vid9.mp4", "-c", "copy",
       "-metadata", "title=" ++ noThumbMeta.title,
       "-metadata", "artist=" ++ noThumbMeta.artist,
       "-metadata", "comment=Downloaded with ULTRA Downloader",
       metaTempPath "downloads/vid9.mp4"] ∧
    (embedMetadata "downloads/vid9.mp4" noThumbMeta okEmbedEnv).1 = .ok () := by
  have h := claim_c7_tag_only_embedding noThumbMeta okEmbedEnv "downloads/vid9.mp4"
    (by decide) (by decide)
  exact ⟨by decide, by decide, h.1, h.2.1, h.2.2 rfl rfl⟩

/-- The fs actions of thumbnail resolution are at most one download to
the embedder's own thumbnail path. -/
theorem resolveThumb_acts (meta : EmbedMetaArg) (env : EmbedEnv) :
    (resolveThumb meta env).2 = [] ∨
      (resolveThumb meta env).2 = [FsAction.write (thumbTempPath env)] := by
  simp only [resolveThumb]
  split
  · split
    · exact Or.inr rfl
    · exact Or.inl rfl
  · split
    · exact Or.inl rfl
    · exact Or.inl rfl

/-- C8: when the Transcoder exits non-zero the embedder rejects with a
message carrying the stderr text, and the file at `filePath` is
untouched — the rename over the original happens only on a zero exit. -/
theorem claim_c8_nonzero_exit_preserves_file (filePath : String)
    (meta : EmbedMetaArg) (env : EmbedEnv) (fs : String → Option String)
    (hspawn : env.ffmpegSpawnErr = none)
    (hcode : env.ffmpegExitCode ≠ 0)
    (hpath : thumbTempPath env ≠ filePath) :
    (embedMetadata filePath meta env).1 =
      .error ("FFmpeg exited with code " ++ toString env.ffmpegExitCode ++
        ". Stderr: " ++ env.ffmpegStderr) ∧
    applyFsActions fs (embedMetadata filePath meta env).2 filePath = fs filePath := by
  have hc : (env.ffmpegExitCode == 0) = false := by
    simpa using hcode
  constructor
  · simp [embedMetadata, hspawn, hc]
  · have hacts : (embedMetadata filePath meta env).2 = (resolveThumb meta env).2 := by
      simp [embedMetadata, hspawn, hc]
    rw [hacts]
    have hpath2 : filePath ≠ thumbTempPath env := Ne.symm hpath
    rcases resolveThumb_acts meta env with h | h
    · simp [h, applyFsActions]
    · simp [h, applyFsActions, applyFsAction, hpath2]

/-- Concrete metadata with a remote thumbnail URL. -/
def urlThumbMeta : EmbedMetaArg :=
  { title := "T2", artist := "A2", thumbnail := "http://example.com/c.jpg" }

/-- A small concrete file system holding the downloaded video. -/
def sampleFs : String → Option String := fun p =>
  if p = "downloads/vid8.mp4" then some "video-bytes" else none

/-- Witness for C8 with an exit code of 1. -/
theorem claim_c8_witness :
    failEmbedEnv.ffmpegSpawnErr = none ∧
    failEmbedEnv.ffmpegExitCode ≠ 0 ∧
    thumbTempPath failEmbedEnv ≠ "downloads/vid8.mp4" ∧
    (embedMetadata "downloads/vid8.mp4" urlThumbMeta failEmbedEnv).1 =
      .error ("FFmpeg exited with code " ++ toString failEmbedEnv.ffmpegExitCode ++
        ". Stderr: " ++ failEmbedEnv.ffmpegStderr) ∧
    applyFsActions sampleFs
      (embedMetadata "downloads/vid8.mp4" urlThumbMeta failEmbedEnv).2
      "downloads/vid8.mp4" = sampleFs "downloads/vid8.mp4" := by
  have h := claim_c8_nonzero_exit_preserves_file "downloads/vid8.mp4" urlThumbMeta
    failEmbedEnv sampleFs rfl (by decide) (by decide)
  exact ⟨rfl, by decide, by decide, h.1, h.2⟩

/-! ## The thumbnail cleanup heuristic (C9) -/

/-- A thumbnail supplied as a pre-existing local path whose name happens
to contain `thumb_`. -/
def preexistingThumbMeta : EmbedMetaArg :=
  { title := "T3", artist := "A3", thumbnail := "/data/thumb_pic.jpg" }

def preexistingThumbEnv : EmbedEnv :=
  { thumbDownloadOk := true, thumbUuid := "u9", ffmpegSpawnErr := none,
    ffmpegExitCode := 0, ffmpegStderr := "",
    fsExists := fun p => p == "/data/thumb_pic.jpg" }

def c9Fs : String → Option String := fun p =>
  if p = "/data/thumb_pic.jpg" then some "cover-bytes"
  else if p = "downloads/vid7.mp4" then some "video-bytes"
  else if p = "downloads/meta_temp_vid7.mp4" then some "tagged-bytes"
  else none

/-- C9: the cleanup guard is `thumbPath.includes("thumb_")`, not "did we
download it", so a pre-existing local thumbnail whose path contains
`thumb_` is unlinked after a successful run — the embedder deletes a
file it never created, contradicting its own cleanup comment. -/
theorem claim_c9_preexisting_thumb_deleted :
    isHttpUrl preexistingThumbMeta.thumbnail = false ∧
    preexistingThumbEnv.fsExists preexistingThumbMeta.thumbnail = true ∧
    (embedMetadata "downloads/vid7.mp4" preexistingThumbMeta preexistingThumbEnv).1 =
      .ok () ∧
    FsAction.unlink "/data/thumb_pic.jpg" ∈
      (embedMetadata "downloads/vid7.mp4" preexistingThumbMeta preexistingThumbEnv).2 ∧
    applyFsActions c9Fs
      (embedMetadata "downloads/vid7.mp4" preexistingThumbMeta preexistingThumbEnv).2
      "/data/thumb_pic.jpg" = none := by
  refine ⟨by decide, by decide, rfl, by decide, by decide⟩
